import Mathlib

/-!
Shallow embedding of the unit-conversion engine of `units/conversions.py`
(IvS Python repository).

The string-processing layer (alias resolution, token decomposition and
compound breakdown) is modelled executably over `List Char` and the
rationals, mirroring the Python source line by line: Python's
`str.replace`, `str.split` and the regular expression
`(\d*)(.+?)(-{0,1}\d+)` used by `solve_aliases` and `components` are
given explicit backtracking implementations.  The numeric value pipeline
of `convert` is modelled over the reals, since the magnitude converters
use `10 ** x` and `log10`.  Float literals of the source are idealised
as the exact decimal rationals they denote.
-/

abbrev Chars := List Char

deriving instance DecidableEq for Except

/-! ## A kernel-reducible rational number type

Mathlib's `Rat` arithmetic is not reducible by the kernel (its gcd is
defined by well-founded recursion), so the float arithmetic of the
parsing layer is modelled by `Q`, rationals normalized with a
fuel-indexed Euclidean gcd.  All reachable values are normalized, so
structural equality coincides with numeric equality. -/

/-- Euclidean gcd with explicit fuel (the fuel strictly exceeds the
first argument, which strictly decreases every step). -/
def gcdF : Nat → Nat → Nat → Nat
  | 0, _, y => y
  | _ + 1, 0, y => y
  | f + 1, x + 1, y => gcdF f (y % (x + 1)) (x + 1)

/-- Kernel-reducible gcd. -/
def mygcd (x y : Nat) : Nat := gcdF (x + 1) x y

/-- A rational number as a normalized numerator/denominator pair. -/
structure Q where
  num : Int
  den : Nat
deriving DecidableEq

/-- Normalize a fraction (positive denominator assumed). -/
def Q.norm (n : Int) (d : Nat) : Q :=
  let g := mygcd n.natAbs d
  ⟨Int.tdiv n (g : Int), d / g⟩

/-- Product of rationals. -/
def Q.mul (a b : Q) : Q := Q.norm (a.num * b.num) (a.den * b.den)

/-- Reciprocal of a rational (the sign moves to the numerator). -/
def Q.inv (a : Q) : Q :=
  if a.num < 0 then ⟨-(a.den : Int), a.num.natAbs⟩ else ⟨(a.den : Int), a.num.natAbs⟩

/-- Natural power of a rational. -/
def Q.pow (a : Q) : Nat → Q
  | 0 => ⟨1, 1⟩
  | n + 1 => (a.pow n).mul a

/-- Integer power of a rational, as Python's `float.__pow__` with an
integer exponent (`0.0 ** negative`, where Python raises
`ZeroDivisionError`, is unreachable in the claims below). -/
def Q.zpowQ (a : Q) : Int → Q
  | .ofNat n => a.pow n
  | .negSucc n => a.inv.pow (n + 1)

instance : OfNat Q n := ⟨⟨n, 1⟩⟩

instance : Mul Q := ⟨Q.mul⟩

instance : Div Q := ⟨fun a b => a.mul b.inv⟩

instance : Pow Q Int := ⟨Q.zpowQ⟩

instance : OfScientific Q :=
  ⟨fun m b e => if b then Q.norm (m : Int) (10 ^ e) else ⟨(m : Int) * (10 : Int) ^ e, 1⟩⟩

/-- Embedding of `Q` into the reals. -/
noncomputable def Q.toReal (q : Q) : ℝ := (q.num : ℝ) / (q.den : ℝ)

/-- Embedding of a natural number into `Q`. -/
def Q.ofNatQ (n : Nat) : Q := ⟨n, 1⟩

/-! ## String utilities mirroring Python primitives -/

/-- Lexicographic order on character lists, as Python compares strings. -/
def strLe : Chars → Chars → Bool
  | [], _ => true
  | _ :: _, [] => false
  | a :: as, b :: bs => if a = b then strLe as bs else decide (a < b)

/-- Insert into a `strLe`-sorted list, keeping it sorted. -/
def insertStr (x : Chars) : List Chars → List Chars
  | [] => [x]
  | y :: rest => if strLe x y then x :: y :: rest else y :: insertStr x rest

/-- Sorting of a list of strings, as Python's `sorted` (ascending). -/
def sortStr : List Chars → List Chars
  | [] => []
  | x :: rest => insertStr x (sortStr rest)

/-- Concatenation with a single space between items, as `' '.join`. -/
def joinSpace : List Chars → Chars
  | [] => []
  | [x] => x
  | x :: rest => x ++ ' ' :: joinSpace rest

/-- Concatenation with empty separator, as `''.join`. -/
def catChars : List Chars → Chars
  | [] => []
  | x :: rest => x ++ catChars rest

/-- Split at every occurrence of a separator, keeping empty fields, as
Python's `str.split(sep)` with an explicit separator. -/
def splitChar (sep : Char) : Chars → List Chars
  | [] => [[]]
  | c :: rest =>
    let r := splitChar sep rest
    if c = sep then [] :: r
    else
      match r with
      | [] => [[c]]
      | g :: gs => (c :: g) :: gs

/-- Split on runs of whitespace, discarding empty fields, as Python's
`str.split()` with no argument. -/
def pySplitWS (l : Chars) : List Chars :=
  ((l.map (fun c => if c.isWhitespace then ' ' else c)) |> splitChar ' ').filter (· ≠ [])

/-- One fuel-indexed step chain of Python's `str.replace`: replace every
non-overlapping occurrence of `pat`, scanning left to right. -/
def pyReplaceF (pat rep : Chars) : Nat → Chars → Chars
  | 0, s => s
  | _ + 1, [] => []
  | n + 1, s@(c :: rest) =>
    if pat ≠ [] ∧ pat.isPrefixOf s then rep ++ pyReplaceF pat rep n (s.drop pat.length)
    else c :: pyReplaceF pat rep n rest

/-- Python's `s.replace(pat, rep)` for a non-empty pattern. -/
def pyReplace (s pat rep : Chars) : Chars :=
  pyReplaceF pat rep (s.length + 1) s

/-- Numeric value of a run of decimal digits. -/
def digitsVal (l : Chars) : Nat :=
  l.foldl (fun n c => 10 * n + (c.toNat - 48)) 0

/-- Decimal rendering of an integer, as Python's `str`/`%d` on an `int`. -/
def intToChars : Int → Chars
  | .ofNat n => Nat.toDigits 10 n
  | .negSucc n => '-' :: Nat.toDigits 10 (n + 1)

/-! ## The regular expression `(\d*)(.+?)(-{0,1}\d+)`

`re.search` with this pattern: at the leftmost feasible start, the digit
group is greedy (longest first, backtracking down), the middle group is
lazy (shortest first), and the final signed integer is greedy. -/

/-- Match `-{0,1}\d+` greedily at the head of the input, returning the
signed value; the rest of the input is left unmatched (no anchor). -/
def matchSignedInt : Chars → Option Int
  | '-' :: rest =>
    let ds := rest.takeWhile Char.isDigit
    if ds.isEmpty then none else some (-(digitsVal ds : Int))
  | l =>
    let ds := l.takeWhile Char.isDigit
    if ds.isEmpty then none else some (digitsVal ds : Int)

/-- Lazy expansion of the middle group `(.+?)`: grow the body one
character at a time until `-{0,1}\d+` matches right after it. -/
def tryBody (pre : Chars) : Chars → Option (Chars × Int)
  | [] => none
  | c :: rest =>
    match matchSignedInt rest with
    | some n => some (pre ++ [c], n)
    | none => tryBody (pre ++ [c]) rest

/-- Backtracking over the greedy digit group `(\d*)`: try a digit-run
of length `k` first, then shorter ones. -/
def tryFactor (l : Chars) : Nat → Option (Chars × Chars × Int)
  | 0 => (tryBody [] l).map (fun bn => (([] : Chars), bn.1, bn.2))
  | k + 1 =>
    match tryBody [] (l.drop (k + 1)) with
    | some (b, n) => some (l.take (k + 1), b, n)
    | none => tryFactor l k

/-- The full leftmost search of `re.search(r'(\d*)(.+?)(-{0,1}\d+)', s)`,
returning (digit-group, body-group, signed-integer-group). -/
def searchTok : Chars → Option (Chars × Chars × Int)
  | [] => none
  | l@(_ :: rest) =>
    match tryFactor l (l.takeWhile Char.isDigit).length with
    | some r => some r
    | none => searchTok rest

/-- A decomposed token: leading factor, alphabetic basis, signed power. -/
structure Tok where
  factor : Q
  basis : Chars
  power : Int
deriving DecidableEq

/-- Decompose one token with the source's regex and fallback: on a match,
`factor` is the digit group (`1` if empty), otherwise the whole token is
the basis with factor `1` and power `1`. -/
def parseTok (unit : Chars) : Tok :=
  match searchTok unit with
  | some (fs, b, p) =>
    { factor := if fs.isEmpty then 1 else Q.ofNatQ (digitsVal fs), basis := b, power := p }
  | none => { factor := 1, basis := unit, power := 1 }

/-- Append `'1'` when the last character is not a digit, mirroring
`if not unit[-1].isdigit(): unit += '1'` (the empty string is handled
separately by the caller, where Python would raise `IndexError`). -/
def pyAppend1 (t : Chars) : Chars :=
  match t.getLast? with
  | none => t
  | some c => if c.isDigit then t else t ++ ['1']

/-! ## Data model: factors, nonlinear converters, error taxonomy -/

/-- Variant tag of the nonlinear converter families of the source. -/
inductive NLTag
  | fahrenheit
  | celcius
  | vegamag
  | abmag
  | stmag
deriving DecidableEq

/-- A nonlinear converter instance: variant, accumulated scalar factor
(the source's `self.prefix`) and tracked power (the source's
`self.power`, never consumed by any `__call__`). -/
structure NLC where
  tag : NLTag
  pfx : Q
  pow : Int
deriving DecidableEq

/-- An entry of the base-unit table: either a plain scalar factor or a
nonlinear converter class. -/
inductive FEntry
  | scalar (q : Q)
  | nlclass (t : NLTag)
deriving DecidableEq

/-- A breakdown factor at run time: a float or a converter instance. -/
inductive Factor
  | scalar (q : Q)
  | nl (c : NLC)
deriving DecidableEq

/-- Error taxonomy of the engine.  The source raises `ValueError` with
distinguishing messages; the spec names them `UnknownUnit`,
`MissingContext` and `UnsupportedConversion` (`KeyError` on the dispatch
table).  `emptyToken` models the `IndexError` Python raises on an empty
token, and `typeError` the `TypeError` of unsupported operand mixes of
`NonLinearConverter`. -/
inductive ConvErr
  | unknownUnit (basis : Chars)
  | missingContext
  | unsupportedConversion (key : Chars)
  | emptyToken
  | typeError
deriving DecidableEq

/-- Multiplication `other * converter` via `NonLinearConverter.__rmul__`:
the scalar multiplies into the stored factor, and the power field is
reset to its default `1` by the fresh construction. -/
def NLC.rmul (c : NLC) (other : Q) : NLC :=
  ⟨c.tag, c.pfx * other, 1⟩

/-- Exponentiation via `NonLinearConverter.__pow__`: the exponent is
added to the stored power field. -/
def NLC.zpowNL (c : NLC) (other : Int) : NLC :=
  ⟨c.tag, c.pfx, c.pow + other⟩

/-- Run-time product `a * b` as Python evaluates it: floats multiply,
`float * converter` goes through `__rmul__`, and a converter on the left
has no `__mul__` and raises `TypeError`. -/
def Factor.mul : Factor → Factor → Except ConvErr Factor
  | .scalar a, .scalar b => .ok (.scalar (a * b))
  | .scalar a, .nl c => .ok (.nl (c.rmul a))
  | .nl _, _ => .error .typeError

/-- Run-time power `a ** z`: floats use ordinary powers (Python raises
`ZeroDivisionError` for `0.0 ** negative`, which no claim touches),
converters use `__pow__`. -/
def Factor.zpow : Factor → Int → Factor
  | .scalar a, z => .scalar (a ^ z)
  | .nl c, z => .nl (c.zpowNL z)

/-! ## The static tables -/

/-- Modelled from the spec: the `constants` module imported by
`conversions.py` is not under `src/`; `au` is the astronomical unit in
SI meters.  Its exact value decides no claim below. -/
def au : Q := 1.49597870691e11

/-- Modelled from the spec: the parsec in SI meters, from the missing
`constants` module.  Its exact value decides no claim below. -/
def pc : Q := 3.0857e16

/-- Modelled from the spec: the light year in SI meters, from the
missing `constants` module.  Its exact value decides no claim below. -/
def ly : Q := 9.4605284e15

/-- Modelled from the spec: the solar radius in SI meters, from the
missing `constants` module.  Its exact value decides no claim below. -/
def Rsun : Q := 6.95508e8

/-- Modelled from the spec: the solar mass in SI kilograms, from the
missing `constants` module.  Its exact value decides no claim below. -/
def Msun : Q := 1.9891e30

/-- Modelled from the spec: the speed of light `c` in SI m/s, from the
missing `constants` module (the spec's change-of-base formulas name it
`c`).  The standard SI value is used. -/
def ccQ : Q := 299792458

/-- The base-unit table `_factors`, in source order: unit name, factor
or converter class, SI base string. -/
def _factors : List (Chars × FEntry × Chars) := [
  ("m".data, .scalar 1e0, "m".data),
  ("A".data, .scalar 1e-10, "m".data),
  ("AU".data, .scalar au, "m".data),
  ("pc".data, .scalar pc, "m".data),
  ("ly".data, .scalar ly, "m".data),
  ("Rsun".data, .scalar Rsun, "m".data),
  ("ft".data, .scalar 0.3048, "m".data),
  ("in".data, .scalar 0.0254, "m".data),
  ("mi".data, .scalar 1609.344, "m".data),
  ("g".data, .scalar 1e-3, "kg".data),
  ("Msun".data, .scalar Msun, "kg".data),
  ("s".data, .scalar 1e0, "s".data),
  ("min".data, .scalar 60, "s".data),
  ("h".data, .scalar 3600, "s".data),
  ("d".data, .scalar 86400, "s".data),
  ("yr".data, .scalar 31536000, "s".data),
  ("cr".data, .scalar 3153600000, "s".data),
  ("hz".data, .scalar 1e0, "cy s-1".data),
  ("rad".data, .scalar 0.15915494309189535, "cy".data),
  ("cy".data, .scalar 1e0, "cy".data),
  ("deg".data, .scalar (1 / 360), "cy".data),
  ("am".data, .scalar (1 / 360 / 60), "cy".data),
  ("as".data, .scalar (1 / 360 / 3600), "cy".data),
  ("sr".data, .scalar 1e0, "sr".data),
  ("N".data, .scalar 1e0, "kg m s-2".data),
  ("dy".data, .scalar 1e-5, "kg m s-2".data),
  ("K".data, .scalar 1e0, "K".data),
  ("F".data, .nlclass .fahrenheit, "K".data),
  ("C".data, .nlclass .celcius, "K".data),
  ("J".data, .scalar 1e0, "kg m2 s-2".data),
  ("W".data, .scalar 1e0, "kg m2 s-3".data),
  ("erg".data, .scalar 1e-7, "kg m2 s-2".data),
  ("eV".data, .scalar 1.60217646e-19, "kg m2 s-2".data),
  ("cal".data, .scalar 4.184, "kg m2 s-2".data),
  ("Pa".data, .scalar 1e0, "kg m-1 s-2".data),
  ("bar".data, .scalar 1e5, "kg m-1 s-2".data),
  ("at".data, .scalar 98066.5, "kg m-1 s-2".data),
  ("atm".data, .scalar 101325, "kg m-1 s-2".data),
  ("torr".data, .scalar 133.322, "kg m-1 s-2".data),
  ("psi".data, .scalar 6894, "kg m-1 s-2".data),
  ("Jy".data, .scalar 1e-26, "kg s-2 cy-1".data),
  ("vegamag".data, .nlclass .vegamag, "kg m-1 s-3".data),
  ("STmag".data, .nlclass .stmag, "kg m-1 s-3".data),
  ("ABmag".data, .nlclass .abmag, "kg s-2 cy-1".data)]

/-- The SI-prefix table `_scalings` in source (insertion) order.  The
source iterates a CPython 2 `dict`, whose iteration order is
implementation defined; every claim settled below is insensitive to
this order (at most one prefix matches on the inputs involved). -/
def _scalings : List (Chars × Q) := [
  ("n".data, 1e-9),
  ("mu".data, 1e-6),
  ("m".data, 1e-3),
  ("c".data, 1e-2),
  ("d".data, 1e-1),
  ("da".data, 1e1),
  ("h".data, 1e2),
  ("k".data, 1e3),
  ("M".data, 1e6),
  ("G".data, 1e9)]

/-- The ordered alias table `_aliases` of `(pattern, replacement)`
pairs, applied by literal substring replacement in this exact order. -/
def _aliases : List (Chars × Chars) := [
  ("micron".data, "mum".data),
  ("micro".data, "mu".data),
  ("milli".data, "m".data),
  ("kilo".data, "k".data),
  ("mega".data, "M".data),
  ("giga".data, "G".data),
  ("nano".data, "n".data),
  ("watt".data, "W".data),
  ("Watt".data, "W".data),
  ("Hz".data, "hz".data),
  ("joule".data, "J".data),
  ("Joule".data, "J".data),
  ("jansky".data, "Jy".data),
  ("Jansky".data, "Jy".data),
  ("arcsec".data, "as".data),
  ("arcmin".data, "am".data),
  ("cycles".data, "cy".data),
  ("cycle".data, "cy".data),
  ("cyc".data, "cy".data),
  ("angstrom".data, "A".data),
  ("Angstrom".data, "A".data),
  (" mag".data, " vegamag".data),
  ("/mag".data, " /vegamag".data),
  ("inch".data, "in".data),
  ("^".data, "".data),
  ("**".data, "".data)]

/-- First-match association lookup in the base-unit table, as `in` /
subscript on the Python dict (keys are unique). -/
def lookupF (b : Chars) : List (Chars × FEntry × Chars) → Option (FEntry × Chars)
  | [] => none
  | (k, e) :: rest => if k = b then some e else lookupF b rest

/-- The source's prefix loop: the first scaling whose name is a prefix
of `b` and whose stripped remainder is a key of the base-unit table. -/
def findScaling (b : Chars) : List (Chars × Q) → Option (Chars × Q)
  | [] => none
  | (s, v) :: rest =>
    if s.isPrefixOf b && (lookupF (b.drop s.length) _factors).isSome then some (s, v)
    else findScaling b rest

/-! ## Alias resolution -/

/-- Rewrite one token that appeared after a division sign: default the
power to `1` when no trailing digit, re-parse with the regex, negate the
power and reattach a non-unit leading factor (`'%d'`-formatted). -/
def rewriteAfterDiv (after_div : Chars) : Chars :=
  let ad := match after_div.getLast? with
    | none => after_div
    | some c => if c.isDigit then after_div else after_div ++ ['1']
  match searchTok ad with
  | some (fs, b, p) =>
    let factor : Q := if fs.isEmpty then 1 else Q.ofNatQ (digitsVal fs)
    let tok := b ++ intToChars (-p)
    if factor ≠ 1 then Nat.toDigits 10 (digitsVal fs) ++ tok else tok
  | none => ad ++ intToChars (-1)

/-- The source's `solve_aliases` on character lists: apply every alias
pair in order by substring replacement, then rewrite each
`/`-separated trailing token to a negated power and re-join the
space-separated fields. -/
def solveAliasesC (unit : Chars) : Chars :=
  let unit := _aliases.foldl (fun u pr => pyReplace u pr.1 pr.2) unit
  if unit.contains '/' then
    let groups := (pySplitWS unit).map (fun uni =>
      match splitChar '/' uni with
      | [] => []
      | first :: divs => first :: divs.map rewriteAfterDiv)
    joinSpace groups.flatten
  else unit

/-! ## Token decomposition (`components`) -/

/-- Common tail of `components`: multiply in the base unit's registered
SI factor (constructing a converter instance when the entry is a
nonlinear class, through `__call__` of the class then `__rmul__`), and
replace the basis with the registered SI base string. -/
def mkComponents (factor : Q) (basis : Chars) (power : Int) :
    Except ConvErr (Factor × Chars × Int) :=
  match lookupF basis _factors with
  | none => .error (.unknownUnit basis)
  | some (.scalar q, si) => .ok (.scalar (factor * q), si, power)
  | some (.nlclass tg, si) => .ok (.nl ⟨tg, factor, 1⟩, si, power)

/-- The source's `components` on character lists: append a default
power, run the regex, then run the prefix loop over the scaling table
and only on failure of every prefix test the direct table membership;
unresolvable bases raise `UnknownUnit`.  The empty token, on which
Python raises `IndexError` at `unit[-1]`, is mapped to `emptyToken`. -/
def componentsC (unit : Chars) : Except ConvErr (Factor × Chars × Int) :=
  if unit = [] then .error .emptyToken
  else
    let t := parseTok (pyAppend1 unit)
    match findScaling t.basis _scalings with
    | some (s, v) => mkComponents (t.factor * v) (t.basis.drop s.length) t.power
    | none =>
      match lookupF t.basis _factors with
      | none => .error (.unknownUnit t.basis)
      | some _ => mkComponents t.factor t.basis t.power

/-! ## Compound breakdown (`breakdown`) -/

/-- Accumulate a power contribution into the ordered association list of
(base symbol, net power), as the source's parallel
`total_units`/`total_power` lists with index update. -/
def addPow : List (Chars × Int) → Chars → Int → List (Chars × Int)
  | [], b, p => [(b, p)]
  | (b', p') :: rest, b, p =>
    if b' = b then (b', p' + p) :: rest else (b', p') :: addPow rest b p

/-- Inner loop of `breakdown`: decompose every sub-token of a multi-term
SI base string, discarding the sub-factor and accumulating
`power_ * power` into the running totals. -/
def innerAccum (power : Int) : List (Chars × Int) → List Chars →
    Except ConvErr (List (Chars × Int))
  | l, [] => .ok l
  | l, b :: rest =>
    match componentsC b with
    | .error e => .error e
    | .ok (_, basis_, power_) => innerAccum power (addPow l basis_ (power_ * power)) rest

/-- Outer loop of `breakdown` over the whitespace-separated tokens:
`total_factor = total_factor * factor ** power`, then the inner
accumulation over the token's SI base string. -/
def foldTokens : Factor × List (Chars × Int) → List Chars →
    Except ConvErr (Factor × List (Chars × Int))
  | acc, [] => .ok acc
  | acc, t :: ts =>
    match componentsC t with
    | .error e => .error e
    | .ok (factor, basis, power) =>
      match acc.1.mul (factor.zpow power) with
      | .error e => .error e
      | .ok tf =>
        match innerAccum power acc.2 (pySplitWS basis) with
        | .error e => .error e
        | .ok l => foldTokens (tf, l) ts

/-- The source's `breakdown` on character lists: resolve aliases, fold
the tokens, drop zero net powers, format `<base><power>` strings and
return them sorted and space-joined together with the total factor. -/
def breakdownC (unit : Chars) : Except ConvErr (Factor × Chars) :=
  match foldTokens (Factor.scalar 1, []) (pySplitWS (solveAliasesC unit)) with
  | .error e => .error e
  | .ok (tf, acc) =>
    .ok (tf, joinSpace (sortStr ((acc.filter (fun bp => bp.2 != 0)).map
      (fun bp => bp.1 ++ intToChars bp.2))))

/-- Public `solve_aliases` on Lean strings. -/
def solve_aliases (unit : String) : String :=
  String.mk (solveAliasesC unit.data)

/-- Public `components` on Lean strings. -/
def components (unit : String) : Except ConvErr (Factor × String × Int) :=
  (componentsC unit.data).map (fun r => (r.1, String.mk r.2.1, r.2.2))

/-- Public `breakdown` on Lean strings. -/
def breakdown (unit : String) : Except ConvErr (Factor × String) :=
  (breakdownC unit.data).map (fun r => (r.1, String.mk r.2))


/-! ## The value pipeline over the reals

The numeric side of `convert` and of the change-of-base functions is
modelled over `ℝ`, the usual idealisation of Python floats.  `numpy.pi`
is the IEEE double nearest to pi; it is modelled as a real constant
(its value cancels in every claim below). -/

/-- The speed of light used by the change-of-base formulas, from the
missing `constants` module (see `ccQ`). -/
noncomputable def cc : ℝ := 299792458

/-- The value imported as `from numpy import pi`. -/
noncomputable def numpy_pi : ℝ := 3.141592653589793

/-- The keyword context after SI reduction: keys to SI float values. -/
abbrev Ctx := List (String × ℝ)

/-- Key lookup in the context, as `kwargs['key']` / `'key' in kwargs`. -/
def ctxFind (kw : Ctx) (k : String) : Option ℝ :=
  match kw with
  | [] => none
  | (k', v) :: rest => if k' = k then some v else ctxFind rest k

/-- Switch from distance to velocity via a reference wavelength:
`(arg - wave) / wave * cc`; `MissingContext` without `wave`. -/
noncomputable def distance2velocity (arg : ℝ) (kw : Ctx) : Except ConvErr ℝ :=
  match ctxFind kw "wave" with
  | some wave => .ok ((arg - wave) / wave * cc)
  | none => .error .missingContext

/-- Switch from velocity to distance via a reference wavelength:
`wave / cc * arg + wave`; `MissingContext` without `wave`. -/
noncomputable def velocity2distance (arg : ℝ) (kw : Ctx) : Except ConvErr ℝ :=
  match ctxFind kw "wave" with
  | some wave => .ok (wave / cc * arg + wave)
  | none => .error .missingContext

/-- Switch from Fnu to Flambda: `cc / wave ** 2 * arg` under `wave`,
else `freq ** 2 / cc * arg` under `freq`, else `MissingContext`. -/
noncomputable def fnu2flambda (arg : ℝ) (kw : Ctx) : Except ConvErr ℝ :=
  match ctxFind kw "wave" with
  | some wave => .ok (cc / wave ^ 2 * arg)
  | none =>
    match ctxFind kw "freq" with
    | some freq => .ok (freq ^ 2 / cc * arg)
    | none => .error .missingContext

/-- Switch from Flambda to Fnu: `wave ** 2 / cc * arg` under `wave`,
else `cc / freq ** 2 * arg` under `freq`, else `MissingContext`. -/
noncomputable def flambda2fnu (arg : ℝ) (kw : Ctx) : Except ConvErr ℝ :=
  match ctxFind kw "wave" with
  | some wave => .ok (wave ^ 2 / cc * arg)
  | none =>
    match ctxFind kw "freq" with
    | some freq => .ok (cc / freq ^ 2 * arg)
    | none => .error .missingContext

/-- Switch from Fnu to nuFnu: `cc / wave * arg` under `wave`, else
`freq / cc * arg` under `freq`, else `MissingContext`. -/
noncomputable def fnu2nufnu (arg : ℝ) (kw : Ctx) : Except ConvErr ℝ :=
  match ctxFind kw "wave" with
  | some wave => .ok (cc / wave * arg)
  | none =>
    match ctxFind kw "freq" with
    | some freq => .ok (freq / cc * arg)
    | none => .error .missingContext

/-- Switch from nuFnu to Fnu: `wave / cc * arg` under `wave`, else
`cc / freq * arg` under `freq`, else `MissingContext`. -/
noncomputable def nufnu2fnu (arg : ℝ) (kw : Ctx) : Except ConvErr ℝ :=
  match ctxFind kw "wave" with
  | some wave => .ok (wave / cc * arg)
  | none =>
    match ctxFind kw "freq" with
    | some freq => .ok (cc / freq * arg)
    | none => .error .missingContext

/-- Switch from distance to frequency via the speed of light (and vice
versa): `cc / arg`; needs no context keyword. -/
noncomputable def distance2frequency (arg : ℝ) (_kw : Ctx) : Except ConvErr ℝ :=
  .ok (cc / arg)

/-- Switch from distance to spatial frequency: `2 pi arg / wave` under
`wave`, else `2 pi arg * cc * freq` under `freq` (the source multiplies
by `cc` here), else `MissingContext`. -/
noncomputable def distance2spatialfreq (arg : ℝ) (kw : Ctx) : Except ConvErr ℝ :=
  match ctxFind kw "wave" with
  | some wave => .ok (2 * numpy_pi * arg / wave)
  | none =>
    match ctxFind kw "freq" with
    | some freq => .ok (2 * numpy_pi * arg * cc * freq)
    | none => .error .missingContext

/-- Switch from spatial frequency to distance: `wave * arg / (2 pi)`
under `wave`, else `cc / freq * arg / (2 pi)` under `freq`, else
`MissingContext`. -/
noncomputable def spatialfreq2distance (arg : ℝ) (kw : Ctx) : Except ConvErr ℝ :=
  match ctxFind kw "wave" with
  | some wave => .ok (wave * arg / (2 * numpy_pi))
  | none =>
    match ctxFind kw "freq" with
    | some freq => .ok (cc / freq * arg / (2 * numpy_pi))
    | none => .error .missingContext

/-- Solid-angle surface used by `per_sr` and `times_sr`:
`pi * (2 pi * radius) ** 2` under `diam` (radius is half) or `radius`,
`(2 pi * pix) ** 2` under `pix`, else `MissingContext`. -/
noncomputable def srSurface (kw : Ctx) : Except ConvErr ℝ :=
  match ctxFind kw "diam" with
  | some diam => .ok (numpy_pi * (2 * numpy_pi * (diam / 2)) ^ 2)
  | none =>
    match ctxFind kw "radius" with
    | some radius => .ok (numpy_pi * (2 * numpy_pi * radius) ^ 2)
    | none =>
      match ctxFind kw "pix" with
      | some pix => .ok ((2 * numpy_pi * pix) ^ 2)
      | none => .error .missingContext

/-- Switch from a quantity to the quantity per steradian: divide by the
solid-angle surface. -/
noncomputable def per_sr (arg : ℝ) (kw : Ctx) : Except ConvErr ℝ :=
  match srSurface kw with
  | .ok surface => .ok (arg / surface)
  | .error e => .error e

/-- Switch from a quantity per steradian to the quantity: multiply by
the solid-angle surface. -/
noncomputable def times_sr (arg : ℝ) (kw : Ctx) : Except ConvErr ℝ :=
  match srSurface kw with
  | .ok surface => .ok (arg * surface)
  | .error e => .error e

/-- The `__call__` of the nonlinear converter families, with the
source's formulas verbatim; `inv` selects the inverse direction.  The
magnitude families ignore the stored factor, the temperature families
use it. -/
noncomputable def NLC.call (c : NLC) (a : ℝ) (inv : Bool) : ℝ :=
  match c.tag with
  | .fahrenheit =>
    if inv = false then (a * c.pfx.toReal + 459.67) * 5 / 9
    else (a * 9 / 5 - 459.67) / c.pfx.toReal
  | .celcius =>
    if inv = false then a * c.pfx.toReal + 273.15
    else (a - 273.15) / c.pfx.toReal
  | .vegamag =>
    if inv = false then (10 : ℝ) ^ (-a / 2.5) * 1e-09
    else -2.5 * Real.logb 10 (a / 1e-09)
  | .abmag =>
    if inv = false then (10 : ℝ) ^ (-a / 2.5) * 3.6307805477010024e-23
    else -2.5 * Real.logb 10 (a / 3.6307805477010024e-23)
  | .stmag =>
    if inv = false then (10 : ℝ) ^ (-a / -2.5) * 0.036307805477010027
    else -2.5 * Real.logb 10 (a / 0.036307805477010027)

/-- Application of the source-side factor to the value:
`fac_from * args[0]` for a float, `fac_from(args[0])` for a converter. -/
noncomputable def applyFrom : Factor → ℝ → ℝ
  | .scalar q, x => q.toReal * x
  | .nl c, x => c.call x false

/-- Application of the target-side factor: `ret_value /= fac_to` for a
float, `fac_to(ret_value, inv=True)` for a converter. -/
noncomputable def applyTo : Factor → ℝ → ℝ
  | .scalar q, r => r / q.toReal
  | .nl c, r => c.call r true

/-- Reduce every keyword quantity `(value, unit)` to SI:
`kwargs_SI[key] = fac_key * kwargs[key][0]`.  A nonlinear factor on a
keyword unit has no defined float product and is a `TypeError`. -/
noncomputable def convertKwargs : List (String × ℝ × String) → Except ConvErr Ctx
  | [] => .ok []
  | (k, v, u) :: rest =>
    match breakdownC u.data with
    | .error e => .error e
    | .ok (.scalar q, _) =>
      match convertKwargs rest with
      | .error e => .error e
      | .ok r => .ok ((k, q.toReal * v) :: r)
    | .ok (.nl _, _) => .error .typeError

/-- The sorted concatenated difference of two signatures:
`"".join(sorted(list(set(a.split()) - set(b.split()))))`. -/
def onlyDiff (a b : Chars) : Chars :=
  catChars (sortStr ((pySplitWS a).filter (fun t => t ∉ pySplitWS b)))

/-- The last `n` characters, as the Python slice `s[-n:]` (the whole
string when it is shorter than `n`). -/
def lastN (n : Nat) (l : Chars) : Chars := l.drop (l.length - n)

/-- All but the last `n` characters, as the Python slice `s[:-n]`. -/
def dropLastN (n : Nat) (l : Chars) : Chars := l.take (l.length - n)

/-- The dispatch table `_switch`, keyed by the concatenated signature
differences; a key with no entry is an `UnsupportedConversion`
(Python's `KeyError`). -/
noncomputable def switchFn (key : Chars) (arg : ℝ) (kw : Ctx) : Except ConvErr ℝ :=
  if key = "_to_s-1".data then distance2velocity arg kw
  else if key = "s-1_to_".data then velocity2distance arg kw
  else if key = "m1_to_cy1s-1".data then distance2frequency arg kw
  else if key = "cy1s-1_to_m1".data then distance2frequency arg kw
  else if key = "m1_to_".data then distance2spatialfreq arg kw
  else if key = "_to_m1".data then spatialfreq2distance arg kw
  else if key = "cy-1s-2_to_m-1s-3".data then fnu2flambda arg kw
  else if key = "m-1s-3_to_cy-1s-2".data then flambda2fnu arg kw
  else if key = "cy-1s-2_to_s-3".data then fnu2nufnu arg kw
  else if key = "s-3_to_cy-1s-2".data then nufnu2fnu arg kw
  else if key = "_to_sr-1".data then per_sr arg kw
  else if key = "sr-1_to_".data then times_sr arg kw
  else .error (.unsupportedConversion key)

/-- The orchestrator `convert`: break both unit strings down (with the
`'SI'` special case on the target), reduce the keyword context to SI,
then either apply the source factor directly on equal signatures or
peel a trailing `sr-1` difference (per-solid-angle step applied to the
raw value) and dispatch the remaining difference; finally divide by the
target factor or invoke the target converter inversely. -/
noncomputable def convert (_from _to : String) (x : ℝ)
    (kwargs : List (String × ℝ × String)) : Except ConvErr ℝ :=
  match breakdownC _from.data with
  | .error e => .error e
  | .ok (fac_from, uni_from) =>
    match (if _to = "SI" then Except.ok (Factor.scalar 1, uni_from)
           else breakdownC _to.data) with
    | .error e => .error e
    | .ok (fac_to, uni_to) =>
      match convertKwargs kwargs with
      | .error e => .error e
      | .ok kwargs_SI =>
        if uni_from = uni_to then
          .ok (applyTo fac_to (applyFrom fac_from x))
        else
          match (if lastN 4 (onlyDiff uni_to uni_from) = "sr-1".data
                 then per_sr x kwargs_SI else .ok x) with
          | .error e => .error e
          | .ok x1 =>
            match (if lastN 4 (onlyDiff uni_from uni_to) = "sr-1".data
                   then times_sr x1 kwargs_SI else .ok x1) with
            | .error e => .error e
            | .ok x2 =>
              match switchFn
                  ((if lastN 4 (onlyDiff uni_from uni_to) = "sr-1".data
                    then dropLastN 4 (onlyDiff uni_from uni_to)
                    else onlyDiff uni_from uni_to) ++ "_to_".data ++
                   (if lastN 4 (onlyDiff uni_to uni_from) = "sr-1".data
                    then dropLastN 4 (onlyDiff uni_to uni_from)
                    else onlyDiff uni_to uni_from))
                  (applyFrom fac_from x2) kwargs_SI with
              | .error e => .error e
              | .ok ret => .ok (applyTo fac_to ret)

/-- A token basis is resolvable when it is directly a key of the
base-unit table or when some scaling name strips from its front to
leave a key of the base-unit table. -/
def resolvable (b : Chars) : Bool :=
  (lookupF b _factors).isSome ||
    _scalings.any (fun sv => sv.1.isPrefixOf b && (lookupF (b.drop sv.1.length) _factors).isSome)

/-- Whether a decomposition result is a success. -/
def isOkE : Except ConvErr (Factor × Chars × Int) → Bool
  | .ok _ => true
  | .error _ => false

/-! ## Helper lemmas for evaluating the pipeline -/

theorem Q.toReal_mk (n : Int) (d : Nat) : Q.toReal ⟨n, d⟩ = (n : ℝ) / (d : ℝ) := rfl

/-- Evaluation of `convert` on two unit strings with equal signatures
and no keyword context. -/
theorem convert_sameunits (_from _to : String) (x : ℝ) (ff ft : Factor) (u : Chars)
    (h1 : breakdownC _from.data = .ok (ff, u)) (hSI : _to ≠ "SI")
    (h2 : breakdownC _to.data = .ok (ft, u)) :
    convert _from _to x [] = .ok (applyTo ft (applyFrom ff x)) := by
  rw [convert.eq_def, h1]
  dsimp only
  rw [if_neg hSI, h2]
  dsimp only [convertKwargs]
  rw [if_pos rfl]

/-- Evaluation of `convert` through the dispatch table when the two
signatures differ and no solid-angle peeling fires. -/
theorem convert_dispatch (_from _to : String) (x : ℝ)
    (kwargs : List (String × ℝ × String)) (ff ft : Factor) (uf ut : Chars) (kwSI : Ctx)
    (h1 : breakdownC _from.data = .ok (ff, uf)) (hSI : _to ≠ "SI")
    (h2 : breakdownC _to.data = .ok (ft, ut))
    (hk : convertKwargs kwargs = .ok kwSI) (hne : uf ≠ ut)
    (hto : lastN 4 (onlyDiff ut uf) ≠ "sr-1".data)
    (hfrom : lastN 4 (onlyDiff uf ut) ≠ "sr-1".data) :
    convert _from _to x kwargs =
      (switchFn (onlyDiff uf ut ++ "_to_".data ++ onlyDiff ut uf)
        (applyFrom ff x) kwSI).map (applyTo ft) := by
  rw [convert.eq_def, h1]
  dsimp only
  rw [if_neg hSI, h2]
  dsimp only
  rw [hk]
  dsimp only
  rw [if_neg hne, if_neg hto]
  dsimp only
  rw [if_neg hfrom]
  dsimp only
  rw [if_neg hfrom, if_neg hto]
  cases switchFn (onlyDiff uf ut ++ "_to_".data ++ onlyDiff ut uf)
      (applyFrom ff x) kwSI <;> rfl

/-- SI reduction of a single keyword quantity. -/
theorem convertKwargs_one (k : String) (v : ℝ) (u : String) (q : Q) (s : Chars)
    (h : breakdownC u.data = .ok (.scalar q, s)) :
    convertKwargs [(k, v, u)] = .ok [(k, q.toReal * v)] := by
  dsimp only [convertKwargs]
  rw [h]

/-- SI reduction of an empty keyword list. -/
theorem convertKwargs_nil : convertKwargs [] = .ok [] := rfl

/-- SI reduction of a keyword list, one step. -/
theorem convertKwargs_cons (k : String) (v : ℝ) (u : String) (q : Q) (s : Chars)
    (rest : List (String × ℝ × String)) (r : Ctx)
    (h : breakdownC u.data = .ok (.scalar q, s)) (hr : convertKwargs rest = .ok r) :
    convertKwargs ((k, v, u) :: rest) = .ok ((k, q.toReal * v) :: r) := by
  dsimp only [convertKwargs]
  rw [h, hr]

/-- Dispatch of the wavelength-to-velocity key. -/
theorem switchFn_to_s1 (arg : ℝ) (kw : Ctx) :
    switchFn "_to_s-1".data arg kw = distance2velocity arg kw := rfl

/-- Dispatch of the distance-to-spatial-frequency key. -/
theorem switchFn_m1_to (arg : ℝ) (kw : Ctx) :
    switchFn "m1_to_".data arg kw = distance2spatialfreq arg kw := rfl

/-- Dispatch of the spatial-frequency-to-distance key. -/
theorem switchFn_to_m1 (arg : ℝ) (kw : Ctx) :
    switchFn "_to_m1".data arg kw = spatialfreq2distance arg kw := rfl

/-- Velocity switch on a context holding exactly a wavelength. -/
theorem d2v_wave (arg w : ℝ) :
    distance2velocity arg [("wave", w)] = .ok ((arg - w) / w * cc) := rfl

/-- Velocity switch on an empty context. -/
theorem d2v_nil (arg : ℝ) :
    distance2velocity arg [] = .error .missingContext := rfl

/-- Spatial-frequency switch on a context holding exactly a frequency:
the source's formula multiplies by `cc`. -/
theorem d2sf_freq (arg f : ℝ) :
    distance2spatialfreq arg [("freq", f)] = .ok (2 * numpy_pi * arg * cc * f) := rfl

/-- Inverse spatial-frequency switch on a context holding exactly a
frequency: the source's formula divides by the frequency and by two pi
after multiplying by `cc`. -/
theorem sf2d_freq (arg f : ℝ) :
    spatialfreq2distance arg [("freq", f)] = .ok (cc / f * arg / (2 * numpy_pi)) := rfl

/-! ## Claim theorems -/

/-- Claim C2 (counter-evidence): `components('min')` does not return the
minute entry `(60.0, 's', 1)` of the base-unit table; the prefix loop
runs before the direct table check, so `'min'` resolves as
milli-`'in'`, i.e. `(2.54e-5, 'm', 1)`. -/
theorem C2_components_min_is_milli_inch :
    components "min" = .ok (.scalar (Q.mk 127 5000000), "m", 1)
    ∧ components "min" ≠ .ok (.scalar (Q.mk 60 1), "s", 1)
    ∧ lookupF "min".data _factors = some (.scalar (Q.mk 60 1), "s".data)
    ∧ Q.mk 127 5000000 = (0.0000254 : Q) := by
  refine ⟨by decide, by decide, by decide, by decide⟩

/-- Claim C3: `breakdown('erg s-1 cm-2 A-1')` returns exactly
`(1.0e7, 'kg1 m-1 s-3')`; the factor is the product over the four
tokens of each token's scalar factor raised to its power, and the
signature words are lexicographically sorted. -/
theorem C3_breakdown_flux_unit :
    breakdown "erg s-1 cm-2 A-1" = .ok (.scalar (Q.mk 10000000 1), "kg1 m-1 s-3")
    ∧ Q.mk 10000000 1 =
        (Q.mk 1 10000000).zpowQ 1 * (Q.mk 1 1).zpowQ (-1) *
        (Q.mk 1 100).zpowQ (-2) * (Q.mk 1 10000000000).zpowQ (-1)
    ∧ sortStr ["kg1".data, "m-1".data, "s-3".data] =
        ["kg1".data, "m-1".data, "s-3".data] := by
  refine ⟨by decide, by decide, by decide⟩

/-- Claim C5: the ABMag converter applied forward to `v` returns
`10 ** (-v / 2.5) * F0` with `F0 = 3.6307805477010024e-23`, and
`convert('ABmag', 'Jy', 0.0)` returns `3630.7805477010024`, the forward
result at `0` divided by the Jy factor `1e-26`; this is within `1e-6`
of the claimed `3630.7805477`. -/
theorem C5_abmag_forward_and_to_jy :
    (∀ (a : ℝ) (p : Q) (w : Int),
      NLC.call ⟨.abmag, p, w⟩ a false = (10 : ℝ) ^ (-a / 2.5) * 3.6307805477010024e-23)
    ∧ convert "ABmag" "Jy" 0 [] = .ok (3630.7805477010024 : ℝ)
    ∧ |(3630.7805477010024 : ℝ) - 3630.7805477| < 1e-6 := by
  refine ⟨fun a p w => by simp [NLC.call], ?_, by rw [abs_lt]; constructor <;> norm_num⟩
  rw [convert_sameunits "ABmag" "Jy" 0 (.nl ⟨.abmag, ⟨1, 1⟩, 1⟩)
      (.scalar ⟨1, 100000000000000000000000000⟩) "cy-1 kg1 s-2".data
      (by decide) (by decide) (by decide)]
  simp only [applyTo, applyFrom, NLC.call, Q.toReal_mk]
  rw [show (-(0 : ℝ) / 2.5) = 0 by norm_num, Real.rpow_zero]
  norm_num

/-- Claim C5 witness: the forward formula instantiated at `v = 0` with
unit prefix. -/
theorem C5_abmag_witness :
    NLC.call ⟨.abmag, ⟨1, 1⟩, 1⟩ 0 false =
      (10 : ℝ) ^ (-(0 : ℝ) / 2.5) * 3.6307805477010024e-23 :=
  C5_abmag_forward_and_to_jy.1 0 ⟨1, 1⟩ 1

/-- Claim C6: the Fahrenheit converter with accumulated factor `p`
computes `(value * p + 459.67) * 5 / 9` forward and
`(value * 9 / 5 - 459.67) / p` inversely; consequently
`convert('F', 'K', 123.0) = 58267/180 = 323.70555...` (within `1e-6` of
the claimed value) and `convert('K', 'F', 323.7) = 122.99`. -/
theorem C6_fahrenheit :
    (∀ (a : ℝ) (p : Q) (w : Int),
      NLC.call ⟨.fahrenheit, p, w⟩ a false = (a * p.toReal + 459.67) * 5 / 9)
    ∧ (∀ (a : ℝ) (p : Q) (w : Int),
      NLC.call ⟨.fahrenheit, p, w⟩ a true = (a * 9 / 5 - 459.67) / p.toReal)
    ∧ convert "F" "K" 123 [] = .ok (58267 / 180 : ℝ)
    ∧ |(58267 / 180 : ℝ) - 323.705555556| < 1e-6
    ∧ convert "K" "F" 323.7 [] = .ok (122.99 : ℝ) := by
  refine ⟨fun a p w => by simp [NLC.call], fun a p w => by simp [NLC.call], ?_, by rw [abs_lt]; constructor <;> norm_num, ?_⟩
  · rw [convert_sameunits "F" "K" 123 (.nl ⟨.fahrenheit, ⟨1, 1⟩, 1⟩) (.scalar ⟨1, 1⟩)
        "K1".data (by decide) (by decide) (by decide)]
    simp only [applyTo, applyFrom, NLC.call, Q.toReal_mk]
    norm_num
  · rw [convert_sameunits "K" "F" 323.7 (.scalar ⟨1, 1⟩) (.nl ⟨.fahrenheit, ⟨1, 1⟩, 1⟩)
        "K1".data (by decide) (by decide) (by decide)]
    simp only [applyTo, applyFrom, NLC.call, Q.toReal_mk]
    norm_num

/-- Claim C6 witness: the forward formula instantiated at `123` with
unit prefix. -/
theorem C6_fahrenheit_witness :
    NLC.call ⟨.fahrenheit, ⟨1, 1⟩, 1⟩ 123 false =
      (123 * (Q.mk 1 1).toReal + 459.67) * 5 / 9 :=
  C6_fahrenheit.1 123 ⟨1, 1⟩ 1

/-- Claim C7: the STMag converter applied forward to `v` returns
`10 ** (v / 2.5) * F0` with `F0 = 0.036307805477010027` (the source's
`10 ** (-v / -2.5)`, a positive exponent unlike ABMag and VegaMag), and
its inverse returns `-2.5 * log10(v / F0)`. -/
theorem C7_stmag_formulas :
    (∀ (a : ℝ) (p : Q) (w : Int),
      NLC.call ⟨.stmag, p, w⟩ a false = (10 : ℝ) ^ (a / 2.5) * 0.036307805477010027)
    ∧ (∀ (a : ℝ) (p : Q) (w : Int),
      NLC.call ⟨.stmag, p, w⟩ a true = -2.5 * Real.logb 10 (a / 0.036307805477010027)) := by
  constructor <;> intro a p w <;> simp [NLC.call, neg_div_neg_eq]

/-- Claim C7 witness: both formulas instantiated at `v = 5` with unit
prefix. -/
theorem C7_stmag_witness :
    NLC.call ⟨.stmag, ⟨1, 1⟩, 1⟩ 5 false = (10 : ℝ) ^ ((5 : ℝ) / 2.5) * 0.036307805477010027 :=
  C7_stmag_formulas.1 5 ⟨1, 1⟩ 1

/-- Claim C10: for every unit string whose breakdown factor is a
nonzero plain scalar, converting a value from the unit to itself with
no context returns the value unchanged: the factor is multiplied in and
then divided out on equal signatures. -/
theorem C10_self_conversion_identity (U : String) (x : ℝ) (f : Q) (sig : Chars)
    (h : breakdownC U.data = .ok (.scalar f, sig)) (hf : f.toReal ≠ 0) :
    convert U U x [] = .ok x := by
  by_cases hU : U = "SI"
  · rw [hU] at h
    rw [show breakdownC "SI".data = .error (.unknownUnit "SI".data) from by decide] at h
    exact absurd h (by simp)
  · rw [convert_sameunits U U x (.scalar f) (.scalar f) sig h hU h]
    simp only [applyTo, applyFrom]
    rw [mul_div_cancel_left₀ x hf]

/-- Claim C10 witness: the identity conversion of `2.0` through `'km'`,
whose breakdown factor is the nonzero scalar `1000`. -/
theorem C10_self_conversion_witness :
    breakdownC "km".data = .ok (.scalar (Q.mk 1000 1), "m1".data)
    ∧ (Q.mk 1000 1).toReal ≠ 0
    ∧ convert "km" "km" 2 [] = .ok 2 :=
  ⟨by decide, by norm_num [Q.toReal_mk],
    C10_self_conversion_identity "km" 2 ⟨1000, 1⟩ "m1".data (by decide)
      (by norm_num [Q.toReal_mk])⟩

/-- Claim C1 (counter-evidence): the round trip through the
spatial-frequency pair under a `freq` context returns `cc ^ 2` times
the input instead of the input: `distance2spatialfreq` multiplies by
`cc` where its doctested inverse `spatialfreq2distance` divides, so
`convert('cy/as', 'm', convert('m', 'cy/as', 1.0, freq=(1.0,'hz')),
freq=(1.0,'hz'))` evaluates to `cc ^ 2`, which is not `1`. -/
theorem C1_spatialfreq_freq_roundtrip :
    ((convert "m" "cy/as" 1 [("freq", 1, "hz")]).bind
      (fun y => convert "cy/as" "m" y [("freq", 1, "hz")])) = .ok (cc ^ 2)
    ∧ cc ^ 2 ≠ (1 : ℝ) := by
  have hk : convertKwargs [("freq", (1 : ℝ), "hz")] = .ok [("freq", (Q.mk 1 1).toReal * 1)] :=
    convertKwargs_cons "freq" 1 "hz" ⟨1, 1⟩ "cy1 s-1".data [] [] (by decide) convertKwargs_nil
  have h1 : convert "m" "cy/as" 1 [("freq", 1, "hz")] =
      .ok (2 * numpy_pi * cc / 1296000) := by
    rw [convert_dispatch "m" "cy/as" 1 _ (.scalar ⟨1, 1⟩) (.scalar ⟨1296000, 1⟩)
        "m1".data [] _ (by decide) (by decide) (by decide) hk (by decide) (by decide)
        (by decide)]
    rw [show onlyDiff "m1".data [] ++ "_to_".data ++ onlyDiff [] "m1".data =
        "m1_to_".data from by decide]
    rw [switchFn_m1_to]
    simp only [applyFrom, Q.toReal_mk]
    rw [show ((((1 : Int) : ℝ) / ((1 : Nat) : ℝ)) * 1) = 1 by norm_num]
    rw [d2sf_freq]
    simp only [Except.map, applyTo, Q.toReal_mk]
    norm_num
  have h2 : convert "cy/as" "m" (2 * numpy_pi * cc / 1296000) [("freq", 1, "hz")] =
      .ok (cc ^ 2) := by
    rw [convert_dispatch "cy/as" "m" (2 * numpy_pi * cc / 1296000) _
        (.scalar ⟨1296000, 1⟩) (.scalar ⟨1, 1⟩) [] "m1".data _ (by decide) (by decide)
        (by decide) hk (by decide) (by decide) (by decide)]
    rw [show onlyDiff [] "m1".data ++ "_to_".data ++ onlyDiff "m1".data [] =
        "_to_m1".data from by decide]
    rw [switchFn_to_m1]
    simp only [applyFrom, Q.toReal_mk]
    rw [show ((((1 : Int) : ℝ) / ((1 : Nat) : ℝ)) * 1) = 1 by norm_num]
    rw [sf2d_freq]
    simp only [Except.map, applyTo, Q.toReal_mk]
    have hpi : numpy_pi ≠ 0 := by norm_num [numpy_pi]
    have hok : cc / 1 * (((1296000 : Int) : ℝ) / ((1 : Nat) : ℝ) *
        (2 * numpy_pi * cc / 1296000)) / (2 * numpy_pi) /
        (((1 : Int) : ℝ) / ((1 : Nat) : ℝ)) = cc ^ 2 := by
      field_simp
      ring
    rw [hok]
  refine ⟨?_, by norm_num [cc]⟩
  rw [h1]
  dsimp only [Except.bind]
  exact h2

/-- Claim C4: `convert('A', 'km/s', 4553.0, wave=(4552.0,'A'))` returns
`cc/4552/1000 = 299792458/4552000`, within `0.001` of the claimed
`65.8595`; with no `wave` keyword the same conversion fails with
`MissingContext`; and every change-of-base function fails exactly when
none of its required keyword quantities is present, with
`MissingContext` the only error it ever produces
(`distance2frequency` requires nothing and never fails). -/
theorem C4_velocity_context_and_missing :
    convert "A" "km/s" 4553 [("wave", 4552, "A")] = .ok (299792458 / 4552000 : ℝ)
    ∧ |(299792458 / 4552000 : ℝ) - 65.8595| < 0.001
    ∧ convert "A" "km/s" 4553 [] = .error .missingContext
    ∧ (∀ (arg : ℝ) (kw : Ctx),
        (distance2velocity arg kw = .error .missingContext ↔ ctxFind kw "wave" = none)
        ∧ ∀ e, distance2velocity arg kw = .error e → e = .missingContext)
    ∧ (∀ (arg : ℝ) (kw : Ctx),
        (velocity2distance arg kw = .error .missingContext ↔ ctxFind kw "wave" = none)
        ∧ ∀ e, velocity2distance arg kw = .error e → e = .missingContext)
    ∧ (∀ (arg : ℝ) (kw : Ctx),
        (fnu2flambda arg kw = .error .missingContext ↔
          ctxFind kw "wave" = none ∧ ctxFind kw "freq" = none)
        ∧ ∀ e, fnu2flambda arg kw = .error e → e = .missingContext)
    ∧ (∀ (arg : ℝ) (kw : Ctx),
        (flambda2fnu arg kw = .error .missingContext ↔
          ctxFind kw "wave" = none ∧ ctxFind kw "freq" = none)
        ∧ ∀ e, flambda2fnu arg kw = .error e → e = .missingContext)
    ∧ (∀ (arg : ℝ) (kw : Ctx),
        (fnu2nufnu arg kw = .error .missingContext ↔
          ctxFind kw "wave" = none ∧ ctxFind kw "freq" = none)
        ∧ ∀ e, fnu2nufnu arg kw = .error e → e = .missingContext)
    ∧ (∀ (arg : ℝ) (kw : Ctx),
        (nufnu2fnu arg kw = .error .missingContext ↔
          ctxFind kw "wave" = none ∧ ctxFind kw "freq" = none)
        ∧ ∀ e, nufnu2fnu arg kw = .error e → e = .missingContext)
    ∧ (∀ (arg : ℝ) (kw : Ctx),
        (distance2spatialfreq arg kw = .error .missingContext ↔
          ctxFind kw "wave" = none ∧ ctxFind kw "freq" = none)
        ∧ ∀ e, distance2spatialfreq arg kw = .error e → e = .missingContext)
    ∧ (∀ (arg : ℝ) (kw : Ctx),
        (spatialfreq2distance arg kw = .error .missingContext ↔
          ctxFind kw "wave" = none ∧ ctxFind kw "freq" = none)
        ∧ ∀ e, spatialfreq2distance arg kw = .error e → e = .missingContext)
    ∧ (∀ (arg : ℝ) (kw : Ctx),
        (per_sr arg kw = .error .missingContext ↔
          ctxFind kw "diam" = none ∧ ctxFind kw "radius" = none ∧ ctxFind kw "pix" = none)
        ∧ ∀ e, per_sr arg kw = .error e → e = .missingContext)
    ∧ (∀ (arg : ℝ) (kw : Ctx),
        (times_sr arg kw = .error .missingContext ↔
          ctxFind kw "diam" = none ∧ ctxFind kw "radius" = none ∧ ctxFind kw "pix" = none)
        ∧ ∀ e, times_sr arg kw = .error e → e = .missingContext)
    ∧ (∀ (arg : ℝ) (kw : Ctx), distance2frequency arg kw = .ok (cc / arg)) := by
  have hk : convertKwargs [("wave", (4552 : ℝ), "A")] =
      .ok [("wave", (Q.mk 1 10000000000).toReal * 4552)] :=
    convertKwargs_cons "wave" 4552 "A" ⟨1, 10000000000⟩ "m1".data [] []
      (by decide) convertKwargs_nil
  refine ⟨?_, by rw [abs_lt]; constructor <;> norm_num, ?_, ?_, ?_, ?_, ?_, ?_, ?_, ?_, ?_,
    ?_, ?_, fun arg kw => rfl⟩
  · rw [convert_dispatch "A" "km/s" 4553 _ (.scalar ⟨1, 10000000000⟩) (.scalar ⟨1000, 1⟩)
        "m1".data "m1 s-1".data _ (by decide) (by decide) (by decide) hk (by decide)
        (by decide) (by decide)]
    rw [show onlyDiff "m1".data "m1 s-1".data ++ "_to_".data ++
        onlyDiff "m1 s-1".data "m1".data = "_to_s-1".data from by decide]
    rw [switchFn_to_s1]
    simp only [Q.toReal_mk, applyFrom]
    rw [d2v_wave]
    simp only [Except.map, applyTo, Q.toReal_mk]
    norm_num [cc]
  · rw [convert_dispatch "A" "km/s" 4553 _ (.scalar ⟨1, 10000000000⟩) (.scalar ⟨1000, 1⟩)
        "m1".data "m1 s-1".data _ (by decide) (by decide) (by decide) convertKwargs_nil
        (by decide) (by decide) (by decide)]
    rw [show onlyDiff "m1".data "m1 s-1".data ++ "_to_".data ++
        onlyDiff "m1 s-1".data "m1".data = "_to_s-1".data from by decide]
    rw [switchFn_to_s1, d2v_nil]
    rfl
  · exact fun arg kw => by cases hw : ctxFind kw "wave" <;> simp [distance2velocity, hw]
  · exact fun arg kw => by cases hw : ctxFind kw "wave" <;> simp [velocity2distance, hw]
  · exact fun arg kw => by
      cases hw : ctxFind kw "wave" <;> cases hf : ctxFind kw "freq" <;>
        simp [fnu2flambda, hw, hf]
  · exact fun arg kw => by
      cases hw : ctxFind kw "wave" <;> cases hf : ctxFind kw "freq" <;>
        simp [flambda2fnu, hw, hf]
  · exact fun arg kw => by
      cases hw : ctxFind kw "wave" <;> cases hf : ctxFind kw "freq" <;>
        simp [fnu2nufnu, hw, hf]
  · exact fun arg kw => by
      cases hw : ctxFind kw "wave" <;> cases hf : ctxFind kw "freq" <;>
        simp [nufnu2fnu, hw, hf]
  · exact fun arg kw => by
      cases hw : ctxFind kw "wave" <;> cases hf : ctxFind kw "freq" <;>
        simp [distance2spatialfreq, hw, hf]
  · exact fun arg kw => by
      cases hw : ctxFind kw "wave" <;> cases hf : ctxFind kw "freq" <;>
        simp [spatialfreq2distance, hw, hf]
  · exact fun arg kw => by
      cases hd : ctxFind kw "diam" <;> cases hr : ctxFind kw "radius" <;>
        cases hp : ctxFind kw "pix" <;> simp [per_sr, srSurface, hd, hr, hp]
  · exact fun arg kw => by
      cases hd : ctxFind kw "diam" <;> cases hr : ctxFind kw "radius" <;>
        cases hp : ctxFind kw "pix" <;> simp [times_sr, srSurface, hd, hr, hp]

/-- Claim C4 witness: the velocity switch on the empty context fails
with `MissingContext`, obtained from the characterization. -/
theorem C4_velocity_witness :
    distance2velocity 1 [] = .error .missingContext :=
  ((C4_velocity_context_and_missing.2.2.2.1 1 []).1).mpr rfl

/-- The prefix loop finds nothing exactly when no scaling passes the
prefix-and-membership test. -/
theorem findScaling_none_iff (b : Chars) (l : List (Chars × Q)) :
    findScaling b l = none ↔
      l.any (fun sv =>
        sv.1.isPrefixOf b && (lookupF (b.drop sv.1.length) _factors).isSome) = false := by
  induction l with
  | nil => simp [findScaling]
  | cons hd tl ih =>
    obtain ⟨s, v⟩ := hd
    by_cases hc : (s.isPrefixOf b && (lookupF (b.drop s.length) _factors).isSome) = true
    · simp [findScaling, hc]
    · rw [Bool.not_eq_true] at hc
      simp [findScaling, hc, ih]

/-- A scaling found by the prefix loop passes the
prefix-and-membership test. -/
theorem findScaling_some_cond (b : Chars) (l : List (Chars × Q)) (s : Chars) (v : Q)
    (h : findScaling b l = some (s, v)) :
    (s.isPrefixOf b && (lookupF (b.drop s.length) _factors).isSome) = true := by
  induction l with
  | nil => simp [findScaling] at h
  | cons hd tl ih =>
    obtain ⟨s', v'⟩ := hd
    by_cases hc : (s'.isPrefixOf b && (lookupF (b.drop s'.length) _factors).isSome) = true
    · rw [findScaling, if_pos hc] at h
      obtain ⟨rfl, rfl⟩ : s' = s ∧ v' = v := by simpa using h
      exact hc
    · rw [findScaling, if_neg hc] at h
      exact ih h

/-- Claim C9: `components('zz9')` raises `UnknownUnit` on the parsed
basis `'zz'`; in general, decomposition of a nonempty token fails
exactly when its parsed basis is neither a base-unit-table key nor
prefix-plus-key for any scaling, and every error produced on a
nonempty token is an `UnknownUnit`. -/
theorem C9_unknown_unit_characterization :
    components "zz9" = .error (.unknownUnit "zz".data)
    ∧ (∀ t : Chars, t ≠ [] →
        (isOkE (componentsC t) = false ↔ resolvable (parseTok (pyAppend1 t)).basis = false))
    ∧ (∀ (t : Chars) (e : ConvErr), t ≠ [] → componentsC t = .error e →
        ∃ b : Chars, e = .unknownUnit b) := by
  refine ⟨by decide, ?_, ?_⟩
  · intro t ht
    rw [componentsC.eq_def, if_neg ht]
    dsimp only
    cases hf : findScaling (parseTok (pyAppend1 t)).basis _scalings with
    | some sv =>
      obtain ⟨s, v⟩ := sv
      have hc := findScaling_some_cond _ _ _ _ hf
      rw [Bool.and_eq_true] at hc
      obtain ⟨-, hsome⟩ := hc
      obtain ⟨⟨entry, si⟩, hval⟩ := Option.isSome_iff_exists.mp hsome
      have hany : ¬ (_scalings.any (fun sv =>
          sv.1.isPrefixOf (parseTok (pyAppend1 t)).basis &&
          (lookupF ((parseTok (pyAppend1 t)).basis.drop sv.1.length) _factors).isSome)
            = false) := by
        intro hno
        rw [← findScaling_none_iff] at hno
        rw [hf] at hno
        exact Option.noConfusion hno
      dsimp only
      rw [mkComponents.eq_def, hval]
      cases entry <;> simp [isOkE, resolvable, Bool.or_eq_false_iff, hany]
    | none =>
      dsimp only
      cases hl : lookupF (parseTok (pyAppend1 t)).basis _factors with
      | none =>
        simp [isOkE, resolvable, Bool.or_eq_false_iff, hl,
          (findScaling_none_iff _ _).mp hf]
      | some val =>
        obtain ⟨entry, si⟩ := val
        dsimp only
        rw [mkComponents.eq_def, hl]
        cases entry <;> simp [isOkE, resolvable, hl]
  · intro t e ht h
    rw [componentsC.eq_def, if_neg ht] at h
    dsimp only at h
    cases hf : findScaling (parseTok (pyAppend1 t)).basis _scalings with
    | some sv =>
      obtain ⟨s, v⟩ := sv
      rw [hf] at h
      dsimp only at h
      rw [mkComponents.eq_def] at h
      cases hl : lookupF ((parseTok (pyAppend1 t)).basis.drop s.length) _factors with
      | none =>
        rw [hl] at h
        exact ⟨_, by simpa using h.symm⟩
      | some val =>
        obtain ⟨entry, si⟩ := val
        rw [hl] at h
        cases entry <;> simp at h
    | none =>
      rw [hf] at h
      dsimp only at h
      cases hl : lookupF (parseTok (pyAppend1 t)).basis _factors with
      | none =>
        rw [hl] at h
        exact ⟨_, by simpa using h.symm⟩
      | some val =>
        obtain ⟨entry, si⟩ := val
        rw [hl] at h
        dsimp only at h
        rw [mkComponents.eq_def, hl] at h
        cases entry <;> simp at h

/-- Claim C9 witness: the characterization instantiated at the
unresolvable nonempty token `'qq1'`. -/
theorem C9_unknown_unit_witness :
    "qq1".data ≠ ([] : Chars) ∧ isOkE (componentsC "qq1".data) = false :=
  ⟨by decide, (C9_unknown_unit_characterization.2.1 "qq1".data (by decide)).mpr (by decide)⟩

/-- Claim C8: when the sorted signature difference on the target side
ends in `'sr-1'` (and the source-side difference does not), `convert`
peels that trailing `'sr-1'` off and applies `per_sr` to the raw value
before the remaining difference is looked up in the dispatch table;
symmetrically, a source-side trailing `'sr-1'` is peeled and handled by
`times_sr`.  One call therefore composes a solid-angle step with
another change-of-base step. -/
theorem C8_sr_peel_composes :
    (∀ (_from _to : String) (x : ℝ) (kwargs : List (String × ℝ × String))
        (ff ft : Factor) (uf ut : Chars) (kwSI : Ctx),
      breakdownC _from.data = .ok (ff, uf) → _to ≠ "SI" →
      breakdownC _to.data = .ok (ft, ut) → convertKwargs kwargs = .ok kwSI →
      uf ≠ ut → lastN 4 (onlyDiff ut uf) = "sr-1".data →
      lastN 4 (onlyDiff uf ut) ≠ "sr-1".data →
      convert _from _to x kwargs =
        (per_sr x kwSI).bind (fun x1 =>
          (switchFn (onlyDiff uf ut ++ "_to_".data ++ dropLastN 4 (onlyDiff ut uf))
            (applyFrom ff x1) kwSI).map (applyTo ft)))
    ∧ (∀ (_from _to : String) (x : ℝ) (kwargs : List (String × ℝ × String))
        (ff ft : Factor) (uf ut : Chars) (kwSI : Ctx),
      breakdownC _from.data = .ok (ff, uf) → _to ≠ "SI" →
      breakdownC _to.data = .ok (ft, ut) → convertKwargs kwargs = .ok kwSI →
      uf ≠ ut → lastN 4 (onlyDiff ut uf) ≠ "sr-1".data →
      lastN 4 (onlyDiff uf ut) = "sr-1".data →
      convert _from _to x kwargs =
        (times_sr x kwSI).bind (fun x2 =>
          (switchFn (dropLastN 4 (onlyDiff uf ut) ++ "_to_".data ++ onlyDiff ut uf)
            (applyFrom ff x2) kwSI).map (applyTo ft))) := by
  constructor
  · intro _from _to x kwargs ff ft uf ut kwSI h1 hSI h2 hk hne hto hfrom
    rw [convert.eq_def, h1]
    dsimp only
    rw [if_neg hSI, h2]
    dsimp only
    rw [hk]
    dsimp only
    rw [if_neg hne, if_pos hto]
    cases hp : per_sr x kwSI with
    | error e => rfl
    | ok x1 =>
      dsimp only [Except.bind]
      rw [if_neg hfrom]
      dsimp only
      rw [if_neg hfrom, if_pos hto]
      cases hs : switchFn (onlyDiff uf ut ++ "_to_".data ++ dropLastN 4 (onlyDiff ut uf))
          (applyFrom ff x1) kwSI <;> rfl
  · intro _from _to x kwargs ff ft uf ut kwSI h1 hSI h2 hk hne hto hfrom
    rw [convert.eq_def, h1]
    dsimp only
    rw [if_neg hSI, h2]
    dsimp only
    rw [hk]
    dsimp only
    rw [if_neg hne, if_neg hto]
    dsimp only
    rw [if_pos hfrom]
    cases hp : times_sr x kwSI with
    | error e => rfl
    | ok x2 =>
      dsimp only [Except.bind]
      rw [if_pos hfrom, if_neg hto]
      cases hs : switchFn (dropLastN 4 (onlyDiff uf ut) ++ "_to_".data ++ onlyDiff ut uf)
          (applyFrom ff x2) kwSI <;> rfl

/-- Claim C8 witness: the target-side peeling instantiated on the
conversion from janskys to a flux per wavelength per steradian, whose
target-side signature difference is `'m-1s-3sr-1'`. -/
theorem C8_sr_peel_witness :
    breakdownC "Jy".data =
      .ok (.scalar (Q.mk 1 100000000000000000000000000), "cy-1 kg1 s-2".data)
    ∧ breakdownC "erg/s/cm2/micron/sr".data =
      .ok (.scalar (Q.mk 1000 1), "kg1 m-1 s-3 sr-1".data)
    ∧ lastN 4 (onlyDiff "kg1 m-1 s-3 sr-1".data "cy-1 kg1 s-2".data) = "sr-1".data
    ∧ convert "Jy" "erg/s/cm2/micron/sr" 1 [("wave", 2, "micron"), ("diam", 3, "mas")] =
      (per_sr 1 [("wave", (Q.mk 1 1000000).toReal * 2),
                 ("diam", (Q.mk 1 1296000000).toReal * 3)]).bind (fun x1 =>
        (switchFn (onlyDiff "cy-1 kg1 s-2".data "kg1 m-1 s-3 sr-1".data ++ "_to_".data ++
            dropLastN 4 (onlyDiff "kg1 m-1 s-3 sr-1".data "cy-1 kg1 s-2".data))
          (applyFrom (.scalar (Q.mk 1 100000000000000000000000000)) x1)
          [("wave", (Q.mk 1 1000000).toReal * 2),
           ("diam", (Q.mk 1 1296000000).toReal * 3)]).map
          (applyTo (.scalar (Q.mk 1000 1)))) :=
  ⟨by decide, by decide, by decide,
    C8_sr_peel_composes.1 "Jy" "erg/s/cm2/micron/sr" 1
      [("wave", 2, "micron"), ("diam", 3, "mas")]
      (.scalar ⟨1, 100000000000000000000000000⟩) (.scalar ⟨1000, 1⟩)
      "cy-1 kg1 s-2".data "kg1 m-1 s-3 sr-1".data
      [("wave", (Q.mk 1 1000000).toReal * 2), ("diam", (Q.mk 1 1296000000).toReal * 3)]
      (by decide) (by decide) (by decide)
      (convertKwargs_cons "wave" 2 "micron" ⟨1, 1000000⟩ "m1".data _ _ (by decide)
        (convertKwargs_cons "diam" 3 "mas" ⟨1, 1296000000⟩ "cy1".data [] []
          (by decide) convertKwargs_nil))
      (by decide) (by decide) (by decide)⟩


/-! ## Doctest-derived sanity evaluations of the parsing layer -/

example : components "m" = .ok (.scalar 1, "m", 1) := by decide
example : components "g2" = .ok (.scalar 0.001, "kg", 2) := by decide
example : components "hg3" = .ok (.scalar 0.1, "kg", 3) := by decide
example : components "Mg4" = .ok (.scalar 1000, "kg", 4) := by decide
example : components "mm" = .ok (.scalar 0.001, "m", 1) := by decide
example : components "W3" = .ok (.scalar 1, "kg m2 s-3", 3) := by decide
example : components "s-2" = .ok (.scalar 1, "s", -2) := by decide
example : breakdown "erg s-1 cm-2 A-1" = .ok (.scalar 10000000, "kg1 m-1 s-3") := by decide
example : breakdown "W m-3" = .ok (.scalar 1, "kg1 m-1 s-3") := by decide
example : breakdown "km/s" = .ok (.scalar 1000, "m1 s-1") := by decide
example : breakdown "cy/as" = .ok (.scalar 1296000, "") := by decide
example : components "min" = .ok (.scalar 0.0000254, "m", 1) := by decide
example : components "zz9" = .error (.unknownUnit "zz".data) := by decide
example : components "h" = .ok (.scalar 3600, "s", 1) := by decide
example : components "d" = .ok (.scalar 86400, "s", 1) := by decide
example : breakdown "ABmag" = .ok (.nl ⟨.abmag, 1, 1⟩, "cy-1 kg1 s-2") := by decide
example : breakdown "Jy" = .ok (.scalar 1e-26, "cy-1 kg1 s-2") := by decide
example : breakdown "F" = .ok (.nl ⟨.fahrenheit, 1, 1⟩, "K1") := by decide
example : breakdown "K" = .ok (.scalar 1, "K1") := by decide
example : breakdown "A" = .ok (.scalar 1e-10, "m1") := by decide
example : breakdown "hz" = .ok (.scalar 1, "cy1 s-1") := by decide
example : breakdown "mas" = .ok (.scalar (Q.mk 1 1296000000), "cy1") := by decide
example : breakdown "micron" = .ok (.scalar 1e-6, "m1") := by decide
example : breakdown "m" = .ok (.scalar 1, "m1") := by decide
example : breakdown "km" = .ok (.scalar 1000, "m1") := by decide
example : breakdown "erg/s/cm2/micron/sr" = .ok (.scalar 1000, "kg1 m-1 s-3 sr-1") := by decide
example : breakdown "SI" = .error (.unknownUnit "SI".data) := by decide
example : solve_aliases "erg/s/cm2/micron/sr" = "erg s-1 cm-2 mum-1 sr-1" := by decide
